import Mathlib

/-!
Shallow embedding of the SHIB Ads WebApp backend (a Vercel serverless
function persisting through the Supabase REST API).  The repository ships
several variants of `api/index.js`; each variant is embedded in its own
namespace:

* `Api`   – the primary variant (`src/api/index.js`, first document):
            the handlers accept client-supplied `reward` / `prize` /
            `amount` values and perform no quota or minimum checks.
* `Api2`  – the stats variant appended to `src/api/index.js`
            (`isNewDay` daily-reset logic based on `Date.toDateString`,
            i.e. the server's local calendar date).
* `Sig`   – the SHA-256-signature variant (`src/unnamed/part_001`):
            server-side reward constants, daily ceilings and a
            `SHA256(user_id:type:SECRET_KEY)` signature check.
* `Td`    – the Telegram `initData` variant (`src/unnamed/part_000`,
            third concatenated document): HMAC validation of the
            Telegram `initData` payload, an inline referral cascade in
            `handleWatchAd`, and `MIN_WITHDRAW_AMOUNT`.
* `Stats` – the `user_stats` variant (`src/unnamed/part_002`): the UTC
            day comparison `isSameDay` and the `get_stats` daily reset.

Modelling conventions, used uniformly:

* JS numbers are modelled as exact rationals (`Rat`); balances and
  amounts are `Rat`, the daily counters are `Int`.
* A request field is an `Option`; `none` models a field that is missing
  or falsy, so a guard of the form `!x` in the source is an `isNone`
  test, and `parseInt` is the identity on the modelled numeric value.
* The Supabase `users` table is an association list from user id to
  row.  A filtered `GET ?id=eq.X` is `dbGet`, a `PATCH ?id=eq.X` is
  `dbSet`, and an insert into one of the append-only audit tables is
  recorded in the corresponding list field of the handler `Outcome`.
* Cryptographic primitives (`crypto.createHash('sha256')`,
  `crypto.createHmac('sha256', k)`) and `JSON.parse` of the embedded
  user object are abstract function parameters of the embedding; no
  theorem below depends on a concrete choice of hash.
* The `Math.random()` draw in `calculateRandomSpinPrize` is modelled by
  passing the drawn index `Math.floor(Math.random() * SPIN_SECTORS.length)`
  as a `Fin SPIN_SECTORS.length` argument.
-/

/-- One row of the Supabase `users` table, as created by `handleRegister`:
balance, the two daily counters, and the optional referrer id `ref_by`. -/
structure UserRow where
  balance : Rat
  ads_watched_today : Int
  spins_today : Int
  ref_by : Option Int
deriving Repr, DecidableEq

/-- The `users` table: an association list from user id to row. -/
abbrev Db := List (Int × UserRow)

/-- A filtered `GET users?id=eq.X` returning the first matching row. -/
def dbGet : Db → Int → Option UserRow
  | [], _ => none
  | (i, u) :: rest, uid => if i = uid then some u else dbGet rest uid

/-- A `PATCH users?id=eq.X`: replace the row of user `uid` (no-op when the
user does not exist, matching a PATCH whose filter selects no rows). -/
def dbSet : Db → Int → UserRow → Db
  | [], _, _ => []
  | (i, u) :: rest, uid, v =>
      if i = uid then (i, v) :: rest else (i, u) :: dbSet rest uid v

/-- The JSON response envelope: HTTP status plus the `ok` flag and the
error or success message (`sendSuccess` / `sendError` in the source). -/
structure Resp where
  status : Nat
  ok : Bool
  msg : String
deriving Repr, DecidableEq

/-- Result of running one handler: the response, the resulting `users`
table, and the rows inserted into each append-only audit table during the
call (empty unless the handler reaches the corresponding POST). -/
structure Outcome where
  resp : Resp
  db : Db
  /-- rows inserted into `ads_history`: (user_id, reward) -/
  adsRecs : List (Int × Rat) := []
  /-- rows inserted into `commission_history`:
      (referrer_id, referee_id, amount, source_reward) -/
  commissionRecs : List (Int × Int × Rat × Rat) := []
  /-- rows inserted into `spin_results`: (user_id, prize) -/
  spinResultRecs : List (Int × Rat) := []
  /-- rows inserted into `withdrawals`: (user_id, amount), always `Pending` -/
  withdrawRecs : List (Int × Rat) := []
deriving Repr, DecidableEq

/-- Model of `sendSuccess(res, data)`: status 200, `ok: true`. -/
def okOutcome (db : Db) (m : String) : Outcome :=
  { resp := { status := 200, ok := true, msg := m }, db := db }

/-- Model of `sendError(res, message, statusCode)`: `ok: false`. -/
def errOutcome (db : Db) (m : String) (statusCode : Nat) : Outcome :=
  { resp := { status := statusCode, ok := false, msg := m }, db := db }

/-- An error response envelope on its own (used by `securityPreCheck`,
which sends the error itself and returns null). -/
def errResp (m : String) (statusCode : Nat) : Resp :=
  { status := statusCode, ok := false, msg := m }

namespace Api

/-- Request body of the primary variant's `watchAd` action: the handler
destructures `user_id` and a client-supplied numeric `reward` (`none`
models a missing or non-number field, rejected by the guard). -/
structure WatchAdReq where
  user_id : Option Int
  reward : Option Rat

/-- Primary variant `handleWatchAd` (src/api/index.js lines 136-175):
credits the client-supplied `reward` and increments `ads_watched_today`,
with no signature and no quota check. -/
def handleWatchAd (req : WatchAdReq) (db : Db) : Outcome :=
  match req.user_id, req.reward with
  | some uid, some reward =>
    match dbGet db uid with
    | none => errOutcome db "User not found." 404
    | some user =>
      let newBalance := user.balance + reward
      let newAdsCount := user.ads_watched_today + 1
      let db1 := dbSet db uid
        { user with balance := newBalance, ads_watched_today := newAdsCount }
      { resp := { status := 200, ok := true, msg := "" }, db := db1,
        adsRecs := [(uid, reward)] }
  | _, _ => errOutcome db "Missing user_id or reward for watchAd." 400

/-- Request body of the primary variant's `commission` action: all four
fields are client-supplied; there is no signature field at all. -/
structure CommissionReq where
  referrer_id : Option Int
  referee_id : Option Int
  amount : Option Rat
  source_reward : Option Rat

/-- Primary variant `handleCommission` (src/api/index.js lines 181-221):
credits the client-supplied `amount` to the referrer with no
authentication and no sign or bound check on `amount`; a missing
referrer is acknowledged with a 200 success and no mutation. -/
def handleCommission (req : CommissionReq) (db : Db) : Outcome :=
  match req.referrer_id, req.referee_id, req.amount, req.source_reward with
  | some rid, some eid, some amount, some sourceReward =>
    match dbGet db rid with
    | none => okOutcome db "Referrer not found, commission aborted."
    | some user =>
      let newBalance := user.balance + amount
      { resp := { status := 200, ok := true, msg := "" },
        db := dbSet db rid { user with balance := newBalance },
        commissionRecs := [(rid, eid, amount, sourceReward)] }
  | _, _, _, _ => errOutcome db "Missing required fields for commission." 400

/-- Request body of the primary variant's `spinResult` action: the prize
is a client-supplied number. -/
structure SpinResultReq where
  user_id : Option Int
  prize : Option Rat

/-- Primary variant `handleSpinResult` (src/api/index.js lines 269-305):
credits whatever numeric `prize` the client sent. -/
def handleSpinResult (req : SpinResultReq) (db : Db) : Outcome :=
  match req.user_id, req.prize with
  | some uid, some prize =>
    match dbGet db uid with
    | none => errOutcome db "User not found." 404
    | some user =>
      let newBalance := user.balance + prize
      { resp := { status := 200, ok := true, msg := "" },
        db := dbSet db uid { user with balance := newBalance },
        spinResultRecs := [(uid, prize)] }
  | _, _ => errOutcome db "Missing user_id or prize for spin result." 400

/-- Request body of the primary variant's `withdraw` action. -/
structure WithdrawReq where
  user_id : Option Int
  binanceId : Option String
  amount : Option Rat

/-- Primary variant `handleWithdraw` (src/api/index.js lines 311-355):
checks only that the amount does not exceed the balance; there is no
minimum-withdrawal check and no signature check. -/
def handleWithdraw (req : WithdrawReq) (db : Db) : Outcome :=
  match req.user_id, req.binanceId, req.amount with
  | some uid, some _binanceId, some amount =>
    match dbGet db uid with
    | none => errOutcome db "User not found." 404
    | some user =>
      if amount > user.balance then errOutcome db "Insufficient balance." 403
      else
        let newBalance := user.balance - amount
        { resp := { status := 200, ok := true, msg := "" },
          db := dbSet db uid { user with balance := newBalance },
          withdrawRecs := [(uid, amount)] }
  | _, _, _ =>
      errOutcome db "Missing user_id, binanceId, or amount for withdrawal." 400

end Api

namespace Sig

/-- The hardcoded fallback in
`process.env.SECRET_KEY || 'your-very-secret-key-replace-me'`. -/
def defaultSecretKey : String := "your-very-secret-key-replace-me"

/-- Model of `SECRET_KEY = process.env.SECRET_KEY || default`: an unset
(`none`) or empty environment variable falls back to the hardcoded
default key. -/
def SECRET_KEY (env : Option String) : String :=
  match env with
  | some s => if s = "" then defaultSecretKey else s
  | none => defaultSecretKey

def DAILY_MAX_ADS : Int := 100

def DAILY_MAX_SPINS : Int := 15

/-- Fixed server-side reward per accepted ad view. -/
def REWARD_PER_AD : Rat := 3

/-- Fixed referral commission rate (0.05 in the source). -/
def REFERRAL_COMMISSION_RATE : Rat := 1 / 20

/-- The fixed ordered sector table of the prize wheel (duplicates
allowed). -/
def SPIN_SECTORS : List Rat := [5, 10, 15, 20, 5]

/-- Model of `calculateRandomSpinPrize`: the server-side draw
`SPIN_SECTORS[Math.floor(Math.random() * SPIN_SECTORS.length)]`; the
random index is a `Fin SPIN_SECTORS.length` argument of the model. -/
def calculateRandomSpinPrize (randomIndex : Fin SPIN_SECTORS.length) : Rat :=
  SPIN_SECTORS.get randomIndex

/-- Model of `verifySignature(user_id, type, signature)` of part_001: the
signature must equal `SHA256(user_id + ":" + type + ":" + SECRET_KEY)`
(hex), with SHA-256 abstracted as the `hash` parameter.  The guard
`if (!signature) return false` treats a missing or empty signature
as invalid. -/
def verifySignature (hash : String → String) (env : Option String)
    (user_id : Int) (ty : String) (signature : Option String) : Bool :=
  match signature with
  | none => false
  | some s =>
    if s = "" then false
    else
      let dataToSign := toString user_id ++ ":" ++ ty ++ ":" ++ SECRET_KEY env
      hash dataToSign == s

/-- Request body of the signed quota-bound actions (`watchAd`, `spin`):
the handlers destructure only `user_id` and `signature`. -/
structure SignedReq where
  user_id : Int
  signature : Option String

/-- part_001 `handleWatchAd` (lines 219-262): signature check, then the
strict daily ceiling `ads_watched_today >= DAILY_MAX_ADS`, then credit
of the server-side constant `REWARD_PER_AD` and a `+1` on the counter. -/
def handleWatchAd (hash : String → String) (env : Option String)
    (req : SignedReq) (db : Db) : Outcome :=
  match verifySignature hash env req.user_id "watchAd" req.signature with
  | false => errOutcome db "Invalid signature or missing token." 403
  | true =>
    match dbGet db req.user_id with
    | none => errOutcome db "User not found." 404
    | some user =>
      if user.ads_watched_today ≥ DAILY_MAX_ADS then
        errOutcome db "Daily ad limit (100) reached." 403
      else
        let newBalance := user.balance + REWARD_PER_AD
        let newAdsCount := user.ads_watched_today + 1
        { resp := { status := 200, ok := true, msg := "" },
          db := dbSet db req.user_id
            { user with balance := newBalance,
                        ads_watched_today := newAdsCount },
          adsRecs := [(req.user_id, REWARD_PER_AD)] }

/-- part_001 `handleSpin` (lines 315-353): signature check, then the
strict daily ceiling `spins_today >= DAILY_MAX_SPINS`, then `+1`. -/
def handleSpin (hash : String → String) (env : Option String)
    (req : SignedReq) (db : Db) : Outcome :=
  match verifySignature hash env req.user_id "spin" req.signature with
  | false => errOutcome db "Invalid signature or missing token." 403
  | true =>
    match dbGet db req.user_id with
    | none => errOutcome db "User not found." 404
    | some user =>
      if user.spins_today ≥ DAILY_MAX_SPINS then
        errOutcome db "Daily spin limit (15) reached." 403
      else
        let newSpinsCount := user.spins_today + 1
        { resp := { status := 200, ok := true, msg := "" },
          db := dbSet db req.user_id { user with spins_today := newSpinsCount } }

/-- Request body of part_001's `spinResult`.  The handler destructures
only `user_id` and `signature`; `clientPrize` stands for any
client-supplied prize data that may also be present in the JSON body and
is dead on arrival. -/
structure SpinResultReq where
  user_id : Int
  signature : Option String
  clientPrize : Option Rat

/-- part_001 `handleSpinResult` (lines 359-396): signature check, then
the prize is drawn server-side by `calculateRandomSpinPrize` and
credited; nothing from the request body influences the amount. -/
def handleSpinResult (hash : String → String) (env : Option String)
    (req : SpinResultReq) (db : Db)
    (randomIndex : Fin SPIN_SECTORS.length) : Outcome :=
  match verifySignature hash env req.user_id "spinResult" req.signature with
  | false => errOutcome db "Invalid signature or missing token." 403
  | true =>
    let prize := calculateRandomSpinPrize randomIndex
    match dbGet db req.user_id with
    | none => errOutcome db "User not found." 404
    | some user =>
      let newBalance := user.balance + prize
      { resp := { status := 200, ok := true, msg := "" },
        db := dbSet db req.user_id { user with balance := newBalance },
        spinResultRecs := [(req.user_id, prize)] }

/-- Request body of part_001's `commission` action: the handler
destructures only `referrer_id` and `referee_id`; the amount is computed
server-side. -/
structure CommissionReq where
  referrer_id : Option Int
  referee_id : Option Int

/-- part_001 `handleCommission` (lines 269-309): the commission is
`REWARD_PER_AD * REFERRAL_COMMISSION_RATE`, computed server-side.  A
missing referrer (or missing ids) is acknowledged with a 200 success and
no mutation; otherwise the referrer is credited and exactly one
`commission_history` row is inserted. -/
def handleCommission (req : CommissionReq) (db : Db) : Outcome :=
  match req.referrer_id, req.referee_id with
  | some rid, some eid =>
    let sourceReward := REWARD_PER_AD
    let commissionAmount := sourceReward * REFERRAL_COMMISSION_RATE
    match dbGet db rid with
    | none => okOutcome db "Referrer not found, commission aborted."
    | some user =>
      let newBalance := user.balance + commissionAmount
      { resp := { status := 200, ok := true, msg := "" },
        db := dbSet db rid { user with balance := newBalance },
        commissionRecs := [(rid, eid, commissionAmount, sourceReward)] }
  | _, _ => okOutcome db "Invalid commission data received but acknowledged."

/-- Request body of part_001's `withdraw` action. -/
structure WithdrawReq where
  user_id : Int
  binanceId : Option String
  amount : Option Rat
  signature : Option String

/-- part_001 `handleWithdraw` (lines 402-452): signature check; a
missing/non-number or non-positive amount is a 400; then, for an
existing user, an amount below the 400 minimum is rejected with status
403, and an amount above the balance with status 403; otherwise the
balance is debited and a `Pending` withdrawal row is created. -/
def handleWithdraw (hash : String → String) (env : Option String)
    (req : WithdrawReq) (db : Db) : Outcome :=
  match verifySignature hash env req.user_id "withdraw" req.signature with
  | false => errOutcome db "Invalid signature or missing token." 403
  | true =>
    match req.amount with
    | none => errOutcome db "Invalid withdrawal amount." 400
    | some amount =>
      if amount ≤ 0 then errOutcome db "Invalid withdrawal amount." 400
      else
        match dbGet db req.user_id with
        | none => errOutcome db "User not found." 404
        | some user =>
          if amount < 400 then
            errOutcome db "Minimum withdrawal is 400 SHIB." 403
          else if amount > user.balance then
            errOutcome db "Insufficient balance." 403
          else
            let newBalance := user.balance - amount
            { resp := { status := 200, ok := true, msg := "" },
              db := dbSet db req.user_id { user with balance := newBalance },
              withdrawRecs := [(req.user_id, amount)] }

end Sig

namespace Td

def REWARD_PER_AD : Rat := 3

def REFERRAL_COMMISSION_RATE : Rat := 1 / 20

def SPIN_SECTORS : List Rat := [5, 10, 15, 20, 5]

/-- Daily ad ceiling of the initData variant (named `DAILY_MAX` there). -/
def DAILY_MAX : Int := 100

def DAILY_MAX_SPINS : Int := 15

def MIN_WITHDRAW_AMOUNT : Rat := 400

def calculateRandomSpinPrize (randomIndex : Fin SPIN_SECTORS.length) : Rat :=
  SPIN_SECTORS.get randomIndex

/-- The Telegram `initData` payload after `URLSearchParams` parsing: an
ordered list of key/value pairs (keys such as `hash`, `user`,
`auth_date`). -/
abbrev Fields := List (String × String)

/-- Value of field `k` in the parsed payload (`data[k]`). -/
def getField : Fields → String → Option String
  | [], _ => none
  | (k, v) :: rest, key => if k = key then some v else getField rest key

/-- Assignment `data[k] = v` on an existing field. -/
def setField : Fields → String → String → Fields
  | [], _, _ => []
  | (k, v) :: rest, key, val =>
      if k = key then (k, val) :: rest else (k, v) :: setField rest key val

/-- Insertion of a pair into a key-sorted list (for the lexicographic
`Object.keys(data).sort()` of `checkSignature`). -/
def insertSorted (kv : String × String) : Fields → Fields
  | [] => [kv]
  | x :: xs => if kv.1 ≤ x.1 then kv :: x :: xs else x :: insertSorted kv xs

/-- Sorting the payload fields lexicographically by key. -/
def sortFields : Fields → Fields
  | [] => []
  | x :: xs => insertSorted x (sortFields xs)

/-- The data-check string of `checkSignature`: every field except the
signature field `hash`, sorted by key, joined as `key=value` lines. -/
def dataCheckString (fields : Fields) : String :=
  String.intercalate "\n"
    ((sortFields (fields.filter (fun kv => kv.1 ≠ "hash"))).map
      (fun kv => kv.1 ++ "=" ++ kv.2))

/-- part_000 `checkSignature` (lines 762-778): the secret key is
`HMAC_SHA256(key := "WebAppData", msg := BOT_TOKEN)` and the signature
is the hex HMAC of the data-check string under that secret, compared to
the payload's `hash` field.  `hmac k m` abstracts
`crypto.createHmac('sha256', k).update(m).digest(...)`. -/
def checkSignature (hmac : String → String → String) (botToken : String)
    (fields : Fields) : Bool :=
  let secret := hmac "WebAppData" botToken
  let sig := hmac secret (dataCheckString fields)
  match getField fields "hash" with
  | some h => sig == h
  | none => false

/-- part_000 `validateInitData` (lines 783-824).  `parseUser` abstracts
`JSON.parse` of the embedded `user` field, returning the numeric user
id on success.  A missing `BOT_TOKEN` refuses every payload; a missing
`hash` field, a missing `user` field or an unparsable user object are
rejected; the `auth_date` staleness rejection is commented out in the
source, so no freshness check happens; finally the signature is checked
over the payload in which `data.user` has been overwritten by the parsed
object (which stringifies as "[object Object]"). -/
def validateInitData (hmac : String → String → String)
    (parseUser : String → Option Int) (BOT_TOKEN : Option String)
    (initData : Fields) : Option (Fields × Int) :=
  match BOT_TOKEN with
  | none => none
  | some tok =>
    match getField initData "hash" with
    | none => none
    | some _ =>
      match getField initData "user" with
      | none => none
      | some ujson =>
        match parseUser ujson with
        | none => none
        | some uid =>
          let data := setField initData "user" "[object Object]"
          if checkSignature hmac tok data then some (data, uid) else none

/-- Request body of the initData variant's sensitive actions: the
security pre-check reads `init_data` and `user_id`. -/
structure Body where
  init_data : Option Fields
  user_id : Option Int

/-- part_000 `securityPreCheck` (lines 830-856): requires `init_data`
and `user_id`, validates the payload, and rejects when the embedded user
id does not match the claimed one as a numeric string
(`String(validatedData.user.id) !== String(user_id)`), all with 403. -/
def securityPreCheck (hmac : String → String → String)
    (parseUser : String → Option Int) (BOT_TOKEN : Option String)
    (body : Body) : Except Resp (Fields × Int) :=
  match body.init_data with
  | none =>
    .error (errResp "Missing Telegram WebApp initialization data for security check." 403)
  | some initData =>
    match body.user_id with
    | none => .error (errResp "Missing user_id in request body." 403)
    | some claimed =>
      match validateInitData hmac parseUser BOT_TOKEN initData with
      | none => .error (errResp "Security validation failed. Request rejected." 403)
      | some (d, uid) =>
        if toString uid ≠ toString claimed then
          .error (errResp "User ID mismatch. Security check failed." 403)
        else
          .ok (d, uid)

/-- part_000 `handleWatchAd` (lines 944-1006): security pre-check, the
daily ceiling, credit of `REWARD_PER_AD`, then the inline referral
cascade: if the user has a referrer and the referrer row exists, the
referrer is credited `reward * REFERRAL_COMMISSION_RATE`; the
`commission_history` insert is commented out in the source, so no audit
row is produced; a missing referrer silently skips the cascade.  (The
`ads_history` insert is commented out as well.) -/
def handleWatchAd (hmac : String → String → String)
    (parseUser : String → Option Int) (BOT_TOKEN : Option String)
    (body : Body) (db : Db) : Outcome :=
  match securityPreCheck hmac parseUser BOT_TOKEN body with
  | .error e => { resp := e, db := db }
  | .ok v =>
    let uid := v.2
    let reward := REWARD_PER_AD
    match dbGet db uid with
    | none => errOutcome db "User not found." 404
    | some user =>
      if user.ads_watched_today ≥ DAILY_MAX then
        errOutcome db "Daily ad limit (100) reached." 403
      else
        let newBalance := user.balance + reward
        let newAdsCount := user.ads_watched_today + 1
        let db1 := dbSet db uid
          { user with balance := newBalance, ads_watched_today := newAdsCount }
        match user.ref_by with
        | none => { resp := { status := 200, ok := true, msg := "" }, db := db1 }
        | some refBy =>
          let commissionAmount := reward * REFERRAL_COMMISSION_RATE
          match dbGet db1 refBy with
          | none => { resp := { status := 200, ok := true, msg := "" }, db := db1 }
          | some referrer =>
            let newRefBalance := referrer.balance + commissionAmount
            let db2 := dbSet db1 refBy { referrer with balance := newRefBalance }
            { resp := { status := 200, ok := true, msg := "" }, db := db2 }

/-- The names bound at the top level of the initData variant
(src/unnamed/part_000, lines 663-1208). -/
def topLevelNames : List String :=
  ["SUPABASE_URL", "SUPABASE_ANON_KEY", "BOT_TOKEN", "crypto",
   "REWARD_PER_AD", "REFERRAL_COMMISSION_RATE", "SPIN_SECTORS",
   "DAILY_MAX", "DAILY_MAX_SPINS", "MIN_WITHDRAW_AMOUNT",
   "calculateRandomSpinPrize", "sendSuccess", "sendError", "supabaseFetch",
   "checkSignature", "validateInitData", "securityPreCheck",
   "handleGetUserData", "handleRegister", "handleWatchAd", "handleSpin",
   "handleSpinResult", "handleWithdraw"]

/-- Standard JS global identifiers available to the serverless function. -/
def jsGlobalNames : List String :=
  ["Array", "Object", "JSON", "Math", "Date", "String", "Number",
   "Boolean", "Promise", "URLSearchParams", "URL", "fetch", "require",
   "process", "console", "parseInt", "parseFloat", "isNaN", "Error",
   "module", "exports", "globalThis", "undefined", "NaN", "Infinity",
   "setTimeout", "Buffer", "TextEncoder", "TextDecoder"]

/-- part_000 `handleSpinResult` (lines 1057-1090): after the security
pre-check and the user fetch, the guard reads
`if (!ArrayOf(users) || users.length === 0)`.  The identifier `ArrayOf`
is bound neither at the top level of the file nor as a JS global, so
evaluating it throws a ReferenceError inside the `try`, and the `catch`
responds with `sendError(..., 500)`; the balance PATCH and the
`spin_results` insert are never reached. -/
def handleSpinResult (hmac : String → String → String)
    (parseUser : String → Option Int) (BOT_TOKEN : Option String)
    (body : Body) (db : Db)
    (randomIndex : Fin SPIN_SECTORS.length) : Outcome :=
  match securityPreCheck hmac parseUser BOT_TOKEN body with
  | .error e => { resp := e, db := db }
  | .ok v =>
    let uid := v.2
    let prize := calculateRandomSpinPrize randomIndex
    let users := dbGet db uid
    if "ArrayOf" ∈ topLevelNames ++ jsGlobalNames then
      -- Unreachable: the membership test is decidably false (the C10
      -- theorem records this); the branch only gives the non-throwing
      -- path a shape.
      match users with
      | none => errOutcome db "User not found." 404
      | some user =>
        let newBalance := user.balance + prize
        { resp := { status := 200, ok := true, msg := "" },
          db := dbSet db uid { user with balance := newBalance },
          spinResultRecs := [(uid, prize)] }
    else
      errOutcome db "Spin result failed: ArrayOf is not defined" 500

end Td

namespace Stats

/-- An instant is modelled as whole minutes since the epoch; its UTC
calendar day is then the floor division by the 1440 minutes of a day
(two instants share their `getUTCFullYear`/`getUTCMonth`/`getUTCDate`
triple exactly when they share this day index). -/
def utcDayIndex (t : Int) : Int := t.fdiv 1440

/-- part_002 `isSameDay` (lines 13-18): equality of the UTC calendar
dates of the two instants. -/
def isSameDay (date1 date2 : Int) : Bool := utcDayIndex date1 = utcDayIndex date2

/-- One row of the `user_stats` table of part_002. -/
structure StatsRow where
  balance : Rat
  ads_watched_today : Int
  spins_today : Int
  last_update : Int
  referrals_count : Int
deriving Repr, DecidableEq

/-- The daily-reset step of part_002's `get_stats` action (lines
145-192): an existing row whose `last_update` falls on a different UTC
calendar day than `now` has both daily counters treated as zero
(whatever their stored magnitude); a missing row becomes a fresh zero
row. -/
def getStats (now : Int) (row : Option StatsRow) : StatsRow :=
  match row with
  | some s =>
    if isSameDay now s.last_update then s
    else { s with ads_watched_today := 0, spins_today := 0 }
  | none =>
    { balance := 0, ads_watched_today := 0, spins_today := 0,
      last_update := now, referrals_count := 0 }

end Stats

namespace Api2

/-- The calendar day of an instant in the server's local timezone,
`tzOffset` minutes ahead of UTC: `Date.toDateString()` renders the local
date, and two instants render the same date string exactly when they
fall in the same local day. -/
def localDayIndex (tzOffset t : Int) : Int := (t + tzOffset).fdiv 1440

/-- Model of `isNewDay(lastUpdated)` of the stats variant appended to
src/api/index.js (lines 518-524): a missing/falsy `lastUpdated` counts
as a new day, and otherwise the comparison is
`now.toDateString() !== last.toDateString()` — the server's local
calendar date, not the UTC one.  `now` is passed explicitly here
(`new Date()` in the source). -/
def isNewDay (tzOffset : Int) (lastUpdated : Option Int) (now : Int) : Bool :=
  match lastUpdated with
  | none => true
  | some last => localDayIndex tzOffset now ≠ localDayIndex tzOffset last

/-- The daily-reset step of this variant's `get_stats` action (lines
591-599): counters are zeroed only when `isNewDay` holds for the local
calendar date. -/
def getStatsCounters (tzOffset now : Int) (row : Stats.StatsRow) :
    Stats.StatsRow :=
  if isNewDay tzOffset (some row.last_update) now then
    { row with ads_watched_today := 0, spins_today := 0, last_update := now }
  else row

end Api2

/-! ### Concrete instantiation material used by witnesses -/

/-- A concrete choice for the abstract HMAC parameter. -/
def wHmac : String → String → String := fun _ _ => "h"

/-- A concrete choice for the abstract `JSON.parse` parameter: the
string "u1" parses to the user object with id 1. -/
def wParseUser : String → Option Int :=
  fun s => if s == "u1" then some 1 else none

/-- A parsed `initData` payload whose `hash` field matches `wHmac`. -/
def wFields : Td.Fields := [("hash", "h"), ("user", "u1"), ("auth_date", "0")]

/-- The list `wFields` after `validateInitData` overwrites the user field with
the parsed object (stringifying as "[object Object]"). -/
def wFieldsObj : Td.Fields :=
  [("hash", "h"), ("user", "[object Object]"), ("auth_date", "0")]

/-- A request body claiming user 1 and carrying `wFields`. -/
def wBody : Td.Body := ⟨some wFields, some 1⟩

/-! ### Association-list lemmas for the `users` table -/

theorem dbGet_dbSet_self (db : Db) (uid : Int) (u v : UserRow)
    (h : dbGet db uid = some u) : dbGet (dbSet db uid v) uid = some v := by
  induction db with
  | nil => simp [dbGet] at h
  | cons hd tl ih =>
    obtain ⟨i, w⟩ := hd
    by_cases hi : i = uid
    · subst hi; simp [dbGet, dbSet]
    · simp only [dbGet, dbSet, if_neg hi] at h ⊢
      exact ih h

theorem dbGet_dbSet_ne (db : Db) (uid uid' : Int) (v : UserRow)
    (h : uid' ≠ uid) : dbGet (dbSet db uid v) uid' = dbGet db uid' := by
  induction db with
  | nil => simp [dbGet, dbSet]
  | cons hd tl ih =>
    obtain ⟨i, w⟩ := hd
    by_cases hi : i = uid
    · subst hi
      simp [dbGet, dbSet, Ne.symm h]
    · simp only [dbGet, dbSet, if_neg hi]
      by_cases hi' : i = uid'
      · simp [hi']
      · simp [hi', ih]

/-! ### C9 -/

/-- C9: in the primary API variant, a `commission` request naming an
existing referrer and carrying any numeric amount `a` — zero, negative
or arbitrarily large — is accepted and sets the referrer's balance to
the old balance plus `a`; the request type has no signature field, and
no check on the sign or size of `a` intervenes. -/
theorem C9_commission_client_amount (rid eid : Int) (a sr : Rat) (db : Db)
    (u : UserRow) (hu : dbGet db rid = some u) :
    (Api.handleCommission ⟨some rid, some eid, some a, some sr⟩ db).resp.ok = true
    ∧ dbGet (Api.handleCommission ⟨some rid, some eid, some a, some sr⟩ db).db rid
        = some { u with balance := u.balance + a }
    ∧ (Api.handleCommission ⟨some rid, some eid, some a, some sr⟩ db).commissionRecs
        = [(rid, eid, a, sr)] := by
  have hset := dbGet_dbSet_self db rid u { u with balance := u.balance + a } hu
  simp [Api.handleCommission, hu, hset]

/-! ### C1 -/

/-- C1 counterexample: in the primary variant (src/api/index.js), a
`watchAd` request carrying the client-supplied reward 999 is accepted
and credits 999, which is not the fixed server-side constant
`REWARD_PER_AD = 3`; so it is not the case that every accepted watchAd
credits the fixed server-side per-ad reward. -/
theorem C1_counterexample :
    (Api.handleWatchAd ⟨some 1, some 999⟩ [(1, ⟨0, 0, 0, none⟩)]).resp.ok = true
    ∧ dbGet (Api.handleWatchAd ⟨some 1, some 999⟩ [(1, ⟨0, 0, 0, none⟩)]).db 1
        = some ⟨999, 1, 0, none⟩
    ∧ (999 : Rat) ≠ 0 + Sig.REWARD_PER_AD := by
  refine ⟨rfl, ?_, by norm_num [Sig.REWARD_PER_AD]⟩
  norm_num [Api.handleWatchAd, dbGet, dbSet]

/-- C1 amended: in the part_001 signature variant, every accepted
`watchAd` call sets the balance to the old balance plus the fixed
server-side `REWARD_PER_AD` and the counter to the old counter plus 1
(no daily reset happens inside this handler); the primary src/api
variant instead credits the client-supplied reward value. -/
theorem C1_amended (hash : String → String) (env : Option String)
    (req : Sig.SignedReq) (db : Db) (u : UserRow)
    (hu : dbGet db req.user_id = some u)
    (hok : (Sig.handleWatchAd hash env req db).resp.ok = true) :
    dbGet (Sig.handleWatchAd hash env req db).db req.user_id
      = some { u with balance := u.balance + Sig.REWARD_PER_AD,
                      ads_watched_today := u.ads_watched_today + 1 } := by
  unfold Sig.handleWatchAd at hok ⊢
  cases hv : Sig.verifySignature hash env req.user_id "watchAd" req.signature with
  | false =>
    rw [hv] at hok
    simp [errOutcome] at hok
  | true =>
    rw [hv] at hok
    rw [hu] at hok ⊢
    dsimp only at hok ⊢
    by_cases hq : u.ads_watched_today ≥ Sig.DAILY_MAX_ADS
    · rw [if_pos hq] at hok
      simp [errOutcome] at hok
    · rw [if_neg hq]
      exact dbGet_dbSet_self db req.user_id u _ hu

/-- Witness for C1: a concrete accepted signed call credits exactly 3
and advances the counter from 0 to 1. -/
theorem C1_witness :
    dbGet (Sig.handleWatchAd (fun _ => "h") none ⟨1, some "h"⟩
        [(1, ⟨0, 0, 0, none⟩)]).db 1
      = some ⟨0 + Sig.REWARD_PER_AD, 0 + 1, 0, none⟩ :=
  C1_amended (fun _ => "h") none ⟨1, some "h"⟩ [(1, ⟨0, 0, 0, none⟩)]
    ⟨0, 0, 0, none⟩ rfl rfl

/-! ### C2 -/

/-- C2 counterexample: in the primary variant, a `spinResult` request
with the client-supplied prize 9999 is accepted and 9999 is credited,
although 9999 is not an element of the fixed sector table; so the prize
is not always drawn from the server-side sector set. -/
theorem C2_counterexample :
    (Api.handleSpinResult ⟨some 1, some 9999⟩ [(1, ⟨0, 0, 0, none⟩)]).resp.ok = true
    ∧ dbGet (Api.handleSpinResult ⟨some 1, some 9999⟩ [(1, ⟨0, 0, 0, none⟩)]).db 1
        = some ⟨9999, 0, 0, none⟩
    ∧ (9999 : Rat) ∉ Sig.SPIN_SECTORS := by
  refine ⟨rfl, ?_, by norm_num [Sig.SPIN_SECTORS]⟩
  norm_num [Api.handleSpinResult, dbGet, dbSet]

/-- C2 amended: in the part_001 signature variant the spin prize is
drawn server-side from the fixed sector table: the credited amount is an
element of `SPIN_SECTORS`, and two requests differing only in
client-supplied prize data produce identical outcomes; the primary
src/api variant instead credits the client-supplied `prize` field. -/
theorem C2_amended (hash : String → String) (env : Option String)
    (idx : Fin Sig.SPIN_SECTORS.length) (r1 r2 : Sig.SpinResultReq)
    (db : Db) (u : UserRow)
    (hid : r1.user_id = r2.user_id) (hsig : r1.signature = r2.signature)
    (hu : dbGet db r1.user_id = some u)
    (hok : (Sig.handleSpinResult hash env r1 db idx).resp.ok = true) :
    Sig.handleSpinResult hash env r1 db idx
        = Sig.handleSpinResult hash env r2 db idx
    ∧ Sig.SPIN_SECTORS.get idx ∈ Sig.SPIN_SECTORS
    ∧ dbGet (Sig.handleSpinResult hash env r1 db idx).db r1.user_id
        = some { u with balance := u.balance + Sig.SPIN_SECTORS.get idx } := by
  obtain ⟨u1, s1, p1⟩ := r1
  obtain ⟨u2, s2, p2⟩ := r2
  dsimp only at hid hsig hu hok ⊢
  subst hid; subst hsig
  refine ⟨rfl, Sig.SPIN_SECTORS.get_mem idx.1 idx.2, ?_⟩
  unfold Sig.handleSpinResult at hok ⊢
  cases hv : Sig.verifySignature hash env u1 "spinResult" s1 with
  | false =>
    rw [hv] at hok
    simp [errOutcome] at hok
  | true =>
    rw [hv] at hok
    rw [hu] at hok ⊢
    dsimp only at hok ⊢
    exact dbGet_dbSet_self db u1 u _ hu

/-- Witness for C2: two concrete requests that differ only in the
client prize field produce the same outcome, and sector 0 (value 5) is
credited. -/
theorem C2_witness :
    Sig.handleSpinResult (fun _ => "h") none ⟨1, some "h", some 777⟩
        [(1, ⟨0, 0, 0, none⟩)] ⟨0, by decide⟩
      = Sig.handleSpinResult (fun _ => "h") none ⟨1, some "h", some 888⟩
        [(1, ⟨0, 0, 0, none⟩)] ⟨0, by decide⟩
    ∧ Sig.SPIN_SECTORS.get ⟨0, by decide⟩ ∈ Sig.SPIN_SECTORS
    ∧ dbGet (Sig.handleSpinResult (fun _ => "h") none ⟨1, some "h", some 777⟩
        [(1, ⟨0, 0, 0, none⟩)] ⟨0, by decide⟩).db 1
        = some ⟨0 + Sig.SPIN_SECTORS.get ⟨0, by decide⟩, 0, 0, none⟩ :=
  C2_amended (fun _ => "h") none ⟨0, by decide⟩ ⟨1, some "h", some 777⟩
    ⟨1, some "h", some 888⟩ [(1, ⟨0, 0, 0, none⟩)] ⟨0, 0, 0, none⟩
    rfl rfl rfl rfl

/-! ### C3 -/

/-- C3 counterexample: in the primary variant the ad counter is at the
ceiling (100 ≥ DAILY_MAX_ADS) and yet the next `watchAd` is accepted and
the counter advances to 101; no QuotaExceeded rejection happens. -/
theorem C3_counterexample :
    (Api.handleWatchAd ⟨some 1, some 3⟩ [(1, ⟨0, 100, 0, none⟩)]).resp.ok = true
    ∧ dbGet (Api.handleWatchAd ⟨some 1, some 3⟩ [(1, ⟨0, 100, 0, none⟩)]).db 1
        = some ⟨3, 101, 0, none⟩
    ∧ (100 : Int) ≥ Sig.DAILY_MAX_ADS := by
  refine ⟨rfl, ?_, by norm_num [Sig.DAILY_MAX_ADS]⟩
  norm_num [Api.handleWatchAd, dbGet, dbSet]

/-- C3 amended: in the part_001 signature variant, a correctly signed
`watchAd`/`spin` whose (never daily-reset) counter is at or above the
ceiling is rejected with the 403 quota error and the table is unchanged,
and an accepted call implies the counter was strictly below the ceiling;
the primary src/api variant enforces no quota at all. -/
theorem C3_amended (hash : String → String) (env : Option String)
    (req : Sig.SignedReq) (db : Db) (u : UserRow)
    (hu : dbGet db req.user_id = some u) :
    (Sig.verifySignature hash env req.user_id "watchAd" req.signature = true →
      u.ads_watched_today ≥ Sig.DAILY_MAX_ADS →
      Sig.handleWatchAd hash env req db
        = errOutcome db "Daily ad limit (100) reached." 403)
    ∧ ((Sig.handleWatchAd hash env req db).resp.ok = true →
        u.ads_watched_today < Sig.DAILY_MAX_ADS)
    ∧ (Sig.verifySignature hash env req.user_id "spin" req.signature = true →
      u.spins_today ≥ Sig.DAILY_MAX_SPINS →
      Sig.handleSpin hash env req db
        = errOutcome db "Daily spin limit (15) reached." 403)
    ∧ ((Sig.handleSpin hash env req db).resp.ok = true →
        u.spins_today < Sig.DAILY_MAX_SPINS) := by
  refine ⟨?_, ?_, ?_, ?_⟩
  · intro hv hq
    unfold Sig.handleWatchAd
    rw [hv, hu]
    dsimp only
    rw [if_pos hq]
  · intro hok
    unfold Sig.handleWatchAd at hok
    cases hv : Sig.verifySignature hash env req.user_id "watchAd" req.signature with
    | false =>
      rw [hv] at hok
      simp [errOutcome] at hok
    | true =>
      rw [hv, hu] at hok
      dsimp only at hok
      by_cases hq : u.ads_watched_today ≥ Sig.DAILY_MAX_ADS
      · rw [if_pos hq] at hok
        simp [errOutcome] at hok
      · exact lt_of_not_ge hq
  · intro hv hq
    unfold Sig.handleSpin
    rw [hv, hu]
    dsimp only
    rw [if_pos hq]
  · intro hok
    unfold Sig.handleSpin at hok
    cases hv : Sig.verifySignature hash env req.user_id "spin" req.signature with
    | false =>
      rw [hv] at hok
      simp [errOutcome] at hok
    | true =>
      rw [hv, hu] at hok
      dsimp only at hok
      by_cases hq : u.spins_today ≥ Sig.DAILY_MAX_SPINS
      · rw [if_pos hq] at hok
        simp [errOutcome] at hok
      · exact lt_of_not_ge hq

/-- Witness for C3: a user standing at both ceilings (ads 100, spins
15); the quota conclusions are available at this concrete input. -/
theorem C3_witness :
    ((Sig.verifySignature (fun _ => "h") none 1 "watchAd" (some "h") = true →
      (100 : Int) ≥ Sig.DAILY_MAX_ADS →
      Sig.handleWatchAd (fun _ => "h") none ⟨1, some "h"⟩
          [(1, ⟨0, 100, 15, none⟩)]
        = errOutcome [(1, ⟨0, 100, 15, none⟩)] "Daily ad limit (100) reached." 403)
    ∧ ((Sig.handleWatchAd (fun _ => "h") none ⟨1, some "h"⟩
          [(1, ⟨0, 100, 15, none⟩)]).resp.ok = true →
        (100 : Int) < Sig.DAILY_MAX_ADS)
    ∧ (Sig.verifySignature (fun _ => "h") none 1 "spin" (some "h") = true →
      (15 : Int) ≥ Sig.DAILY_MAX_SPINS →
      Sig.handleSpin (fun _ => "h") none ⟨1, some "h"⟩
          [(1, ⟨0, 100, 15, none⟩)]
        = errOutcome [(1, ⟨0, 100, 15, none⟩)] "Daily spin limit (15) reached." 403)
    ∧ ((Sig.handleSpin (fun _ => "h") none ⟨1, some "h"⟩
          [(1, ⟨0, 100, 15, none⟩)]).resp.ok = true →
        (15 : Int) < Sig.DAILY_MAX_SPINS)) :=
  C3_amended (fun _ => "h") none ⟨1, some "h"⟩ [(1, ⟨0, 100, 15, none⟩)]
    ⟨0, 100, 15, none⟩ rfl

/-! ### C9 auxiliary -/

/-- Witness for C9: a negative amount of −5 is credited unchecked. -/
theorem C9_witness :
    (Api.handleCommission ⟨some 1, some 2, some (-5), some 0⟩
        [(1, ⟨100, 0, 0, none⟩)]).resp.ok = true
    ∧ dbGet (Api.handleCommission ⟨some 1, some 2, some (-5), some 0⟩
        [(1, ⟨100, 0, 0, none⟩)]).db 1 = some ⟨100 + (-5), 0, 0, none⟩
    ∧ (Api.handleCommission ⟨some 1, some 2, some (-5), some 0⟩
        [(1, ⟨100, 0, 0, none⟩)]).commissionRecs = [(1, 2, -5, 0)] :=
  C9_commission_client_amount 1 2 (-5) 0 [(1, ⟨100, 0, 0, none⟩)]
    ⟨100, 0, 0, none⟩ rfl

/-! ### C4 -/

/-- C4 counterexample: in the part_001 variant a withdrawal of 100 (below
the 400 minimum) by a user with balance 1000 is rejected with the
minimum-not-met error carrying HTTP status 403, not 400; and in the
primary src/api variant the same below-minimum withdrawal is not
rejected at all — it is processed and debited. -/
theorem C4_counterexample :
    Sig.handleWithdraw (fun _ => "h") none ⟨1, some "b", some 100, some "h"⟩
        [(1, ⟨1000, 0, 0, none⟩)]
      = errOutcome [(1, ⟨1000, 0, 0, none⟩)] "Minimum withdrawal is 400 SHIB." 403
    ∧ (Sig.handleWithdraw (fun _ => "h") none ⟨1, some "b", some 100, some "h"⟩
        [(1, ⟨1000, 0, 0, none⟩)]).resp.status ≠ 400
    ∧ (Api.handleWithdraw ⟨some 1, some "b", some 100⟩
        [(1, ⟨1000, 0, 0, none⟩)]).resp.ok = true
    ∧ dbGet (Api.handleWithdraw ⟨some 1, some "b", some 100⟩
        [(1, ⟨1000, 0, 0, none⟩)]).db 1 = some ⟨900, 0, 0, none⟩ := by
  refine ⟨rfl, by decide, rfl, ?_⟩
  norm_num [Api.handleWithdraw, dbGet, dbSet]

/-- C4 amended: in the part_001 variant, a correctly signed withdrawal
by an existing user whose amount is positive but below the 400 minimum
is rejected with the minimum-not-met error carrying HTTP status 403 (a
403, not the claimed 400) and the table is unchanged; the primary
src/api variant applies no minimum check and processes any such amount
covered by the balance. -/
theorem C4_amended (hash : String → String) (env : Option String)
    (req : Sig.WithdrawReq) (db : Db) (u : UserRow) (a : Rat)
    (hv : Sig.verifySignature hash env req.user_id "withdraw" req.signature = true)
    (ha : req.amount = some a) (h0 : 0 < a) (hmin : a < 400)
    (hu : dbGet db req.user_id = some u)
    (uidA : Int) (bidA : String) (dbA : Db) (uA : UserRow)
    (huA : dbGet dbA uidA = some uA) (hbal : a ≤ uA.balance) :
    Sig.handleWithdraw hash env req db
        = errOutcome db "Minimum withdrawal is 400 SHIB." 403
    ∧ (Api.handleWithdraw ⟨some uidA, some bidA, some a⟩ dbA).resp.ok = true
    ∧ dbGet (Api.handleWithdraw ⟨some uidA, some bidA, some a⟩ dbA).db uidA
        = some { uA with balance := uA.balance - a } := by
  refine ⟨?_, ?_, ?_⟩
  · unfold Sig.handleWithdraw
    rw [hv]
    dsimp only
    rw [ha]
    dsimp only
    rw [if_neg (not_le.mpr h0)]
    rw [hu]
    dsimp only
    rw [if_pos hmin]
  · unfold Api.handleWithdraw
    dsimp only
    rw [huA]
    dsimp only
    rw [if_neg (not_lt.mpr hbal)]
  · unfold Api.handleWithdraw
    dsimp only
    rw [huA]
    dsimp only
    rw [if_neg (not_lt.mpr hbal)]
    exact dbGet_dbSet_self dbA uidA uA _ huA

/-- Witness for C4: a signed withdrawal of 100 against balance 1000 in
the part_001 variant, and the same amount processed by the primary
variant. -/
theorem C4_witness :
    Sig.handleWithdraw (fun _ => "h") none ⟨1, some "b", some 100, some "h"⟩
        [(1, ⟨1000, 0, 0, none⟩)]
      = errOutcome [(1, ⟨1000, 0, 0, none⟩)] "Minimum withdrawal is 400 SHIB." 403
    ∧ (Api.handleWithdraw ⟨some 2, some "b", some 100⟩
        [(2, ⟨1000, 0, 0, none⟩)]).resp.ok = true
    ∧ dbGet (Api.handleWithdraw ⟨some 2, some "b", some 100⟩
        [(2, ⟨1000, 0, 0, none⟩)]).db 2
        = some ⟨1000 - 100, 0, 0, none⟩ :=
  C4_amended (fun _ => "h") none ⟨1, some "b", some 100, some "h"⟩
    [(1, ⟨1000, 0, 0, none⟩)] ⟨1000, 0, 0, none⟩ 100 rfl rfl
    (by norm_num) (by norm_num) rfl 2 "b" [(2, ⟨1000, 0, 0, none⟩)]
    ⟨1000, 0, 0, none⟩ rfl (by norm_num)

/-! ### C5 -/

/-- C5 counterexample: an accepted ad-reward event in the initData
variant for user 1 (referred by the existing user 2) credits the
referrer with the commission, but appends no commission audit record at
all — the `commission_history` insert is commented out — so it is not
the case that exactly one commission audit record is appended. -/
theorem C5_counterexample :
    (Td.handleWatchAd wHmac wParseUser (some "t") wBody
        [(1, ⟨0, 0, 0, some 2⟩), (2, ⟨10, 0, 0, none⟩)]).resp.ok = true
    ∧ dbGet (Td.handleWatchAd wHmac wParseUser (some "t") wBody
        [(1, ⟨0, 0, 0, some 2⟩), (2, ⟨10, 0, 0, none⟩)]).db 2
        = some ⟨10 + Td.REWARD_PER_AD * Td.REFERRAL_COMMISSION_RATE, 0, 0, none⟩
    ∧ (Td.handleWatchAd wHmac wParseUser (some "t") wBody
        [(1, ⟨0, 0, 0, some 2⟩), (2, ⟨10, 0, 0, none⟩)]).commissionRecs.length
        ≠ 1 := by
  refine ⟨rfl, rfl, by decide⟩

/-- C5 amended: on an accepted ad-reward event for user A referred by B
in the initData variant, if B exists then B is credited exactly
`R × commission_rate` (R the fixed reward, rate 5%), but no commission
audit record is appended (the insert is commented out); if B does not
exist the cascade is silently skipped and A's own reward still succeeds.
In the part_001 variant, the separate `commission` handler credits an
existing referrer exactly `R × commission_rate` and appends exactly one
commission audit record. -/
theorem C5_amended
    (hmac : String → String → String) (parseUser : String → Option Int)
    (tok : Option String) (body : Td.Body) (d : Td.Fields) (uid : Int)
    (hpre : Td.securityPreCheck hmac parseUser tok body = .ok (d, uid))
    (db : Db) (u r : UserRow) (rid : Int)
    (hu : dbGet db uid = some u) (href : u.ref_by = some rid)
    (hne : rid ≠ uid) (hq : u.ads_watched_today < Td.DAILY_MAX)
    (hr : dbGet db rid = some r)
    (db' : Db) (u' : UserRow) (rid' : Int)
    (hu' : dbGet db' uid = some u') (href' : u'.ref_by = some rid')
    (hne' : rid' ≠ uid) (hq' : u'.ads_watched_today < Td.DAILY_MAX)
    (hr' : dbGet db' rid' = none)
    (dbc : Db) (uc : UserRow) (ridc eidc : Int)
    (huc : dbGet dbc ridc = some uc) :
    ((Td.handleWatchAd hmac parseUser tok body db).resp.ok = true
      ∧ dbGet (Td.handleWatchAd hmac parseUser tok body db).db uid
          = some { u with balance := u.balance + Td.REWARD_PER_AD,
                          ads_watched_today := u.ads_watched_today + 1 }
      ∧ dbGet (Td.handleWatchAd hmac parseUser tok body db).db rid
          = some { r with balance := r.balance
              + Td.REWARD_PER_AD * Td.REFERRAL_COMMISSION_RATE }
      ∧ (Td.handleWatchAd hmac parseUser tok body db).commissionRecs = [])
    ∧ ((Td.handleWatchAd hmac parseUser tok body db').resp.ok = true
      ∧ dbGet (Td.handleWatchAd hmac parseUser tok body db').db uid
          = some { u' with balance := u'.balance + Td.REWARD_PER_AD,
                           ads_watched_today := u'.ads_watched_today + 1 })
    ∧ ((Sig.handleCommission ⟨some ridc, some eidc⟩ dbc).resp.ok = true
      ∧ dbGet (Sig.handleCommission ⟨some ridc, some eidc⟩ dbc).db ridc
          = some { uc with balance := uc.balance
              + Sig.REWARD_PER_AD * Sig.REFERRAL_COMMISSION_RATE }
      ∧ (Sig.handleCommission ⟨some ridc, some eidc⟩ dbc).commissionRecs
          = [(ridc, eidc, Sig.REWARD_PER_AD * Sig.REFERRAL_COMMISSION_RATE,
              Sig.REWARD_PER_AD)]) := by
  refine ⟨?_, ?_, ?_⟩
  · unfold Td.handleWatchAd
    rw [hpre]
    dsimp only
    rw [hu]
    dsimp only
    rw [if_neg (not_le.mpr hq)]
    rw [href]
    dsimp only
    rw [dbGet_dbSet_ne db uid rid _ hne, hr]
    dsimp only
    have hmid : dbGet (dbSet db uid
        { u with balance := u.balance + Td.REWARD_PER_AD,
                 ads_watched_today := u.ads_watched_today + 1,
                 ref_by := some rid }) rid = some r := by
      rw [dbGet_dbSet_ne db uid rid _ hne]; exact hr
    refine ⟨rfl, ?_, ?_, rfl⟩
    · rw [dbGet_dbSet_ne _ rid uid _ (Ne.symm hne)]
      exact dbGet_dbSet_self db uid u _ hu
    · exact dbGet_dbSet_self _ rid r _ hmid
  · unfold Td.handleWatchAd
    rw [hpre]
    dsimp only
    rw [hu']
    dsimp only
    rw [if_neg (not_le.mpr hq')]
    rw [href']
    dsimp only
    rw [dbGet_dbSet_ne db' uid rid' _ hne', hr']
    dsimp only
    exact ⟨rfl, dbGet_dbSet_self db' uid u' _ hu'⟩
  · unfold Sig.handleCommission
    dsimp only
    rw [huc]
    dsimp only
    exact ⟨rfl, dbGet_dbSet_self dbc ridc uc _ huc, rfl⟩

/-- Witness for C5: user 1 referred by existing user 2 (credited, no
audit row), user 1 referred by missing user 3 (cascade skipped, own
reward succeeds), and the part_001 commission handler crediting user 7
with exactly one audit row. -/
theorem C5_witness :
    (((Td.handleWatchAd wHmac wParseUser (some "t") wBody
        [(1, ⟨0, 0, 0, some 2⟩), (2, ⟨10, 0, 0, none⟩)]).resp.ok = true
      ∧ dbGet (Td.handleWatchAd wHmac wParseUser (some "t") wBody
          [(1, ⟨0, 0, 0, some 2⟩), (2, ⟨10, 0, 0, none⟩)]).db 1
          = some ⟨0 + Td.REWARD_PER_AD, 0 + 1, 0, some 2⟩
      ∧ dbGet (Td.handleWatchAd wHmac wParseUser (some "t") wBody
          [(1, ⟨0, 0, 0, some 2⟩), (2, ⟨10, 0, 0, none⟩)]).db 2
          = some ⟨10 + Td.REWARD_PER_AD * Td.REFERRAL_COMMISSION_RATE, 0, 0, none⟩
      ∧ (Td.handleWatchAd wHmac wParseUser (some "t") wBody
          [(1, ⟨0, 0, 0, some 2⟩), (2, ⟨10, 0, 0, none⟩)]).commissionRecs = [])
    ∧ ((Td.handleWatchAd wHmac wParseUser (some "t") wBody
        [(1, ⟨0, 0, 0, some 3⟩)]).resp.ok = true
      ∧ dbGet (Td.handleWatchAd wHmac wParseUser (some "t") wBody
          [(1, ⟨0, 0, 0, some 3⟩)]).db 1
          = some ⟨0 + Td.REWARD_PER_AD, 0 + 1, 0, some 3⟩)
    ∧ ((Sig.handleCommission ⟨some 7, some 8⟩ [(7, ⟨5, 0, 0, none⟩)]).resp.ok = true
      ∧ dbGet (Sig.handleCommission ⟨some 7, some 8⟩ [(7, ⟨5, 0, 0, none⟩)]).db 7
          = some ⟨5 + Sig.REWARD_PER_AD * Sig.REFERRAL_COMMISSION_RATE, 0, 0, none⟩
      ∧ (Sig.handleCommission ⟨some 7, some 8⟩ [(7, ⟨5, 0, 0, none⟩)]).commissionRecs
          = [(7, 8, Sig.REWARD_PER_AD * Sig.REFERRAL_COMMISSION_RATE,
              Sig.REWARD_PER_AD)])) :=
  C5_amended wHmac wParseUser (some "t") wBody wFieldsObj 1 rfl
    [(1, ⟨0, 0, 0, some 2⟩), (2, ⟨10, 0, 0, none⟩)]
    ⟨0, 0, 0, some 2⟩ ⟨10, 0, 0, none⟩ 2 rfl rfl (by decide) (by decide) rfl
    [(1, ⟨0, 0, 0, some 3⟩)] ⟨0, 0, 0, some 3⟩ 3 rfl rfl (by decide)
    (by decide) rfl
    [(7, ⟨5, 0, 0, none⟩)] ⟨5, 0, 0, none⟩ 7 8 rfl

/-! ### C6 -/

/-- C6 counterexample: the instants 1439 and 1441 (minutes since the
epoch) lie on different UTC calendar days, yet with a server timezone 60
minutes ahead of UTC the `isNewDay` comparison of the src/api stats
variant sees the same local date string, so the stored counter 100 is
not treated as zero — the reset is keyed on the local calendar date, not
the UTC one. -/
theorem C6_counterexample :
    Stats.utcDayIndex 1441 ≠ Stats.utcDayIndex 1439
    ∧ Api2.isNewDay 60 (some 1439) 1441 = false
    ∧ (Api2.getStatsCounters 60 1441 ⟨0, 100, 15, 1439, 0⟩).ads_watched_today
        = 100
    ∧ (100 : Int) ≠ 0 := by
  refine ⟨by decide, rfl, rfl, by decide⟩

/-- C6 amended: in the part_002 variant the reset is keyed on the UTC
calendar date: whenever the UTC day of the stored `last_update` differs
from the current UTC day, the `get_stats` step treats both daily
counters as zero regardless of their stored magnitude (the balance is
untouched).  The src/api stats variant instead compares the server's
local calendar date (`toDateString`), and when the local dates agree it
performs no reset at all; the reset runs in the `get_stats` flow, not
inside the quota-bound handlers. -/
theorem C6_amended (now : Int) (s : Stats.StatsRow)
    (hdiff : Stats.utcDayIndex now ≠ Stats.utcDayIndex s.last_update)
    (off2 now2 : Int) (s2 : Stats.StatsRow)
    (hsame : Api2.localDayIndex off2 now2 = Api2.localDayIndex off2 s2.last_update) :
    (Stats.getStats now (some s)).ads_watched_today = 0
    ∧ (Stats.getStats now (some s)).spins_today = 0
    ∧ (Stats.getStats now (some s)).balance = s.balance
    ∧ Api2.getStatsCounters off2 now2 s2 = s2 := by
  have hb : Stats.isSameDay now s.last_update = false := by
    simp [Stats.isSameDay, hdiff]
  have hb2 : Api2.isNewDay off2 (some s2.last_update) now2 = false := by
    simp [Api2.isNewDay, hsame]
  refine ⟨?_, ?_, ?_, ?_⟩ <;> simp [Stats.getStats, Api2.getStatsCounters, hb, hb2]

/-- Witness for C6: last update at minute 1439 (UTC day 0), now at
minute 1441 (UTC day 1): part_002 zeroes the stored counters 100/15; the
src/api variant at offset +60 sees the same local day. -/
theorem C6_witness :
    (Stats.getStats 1441 (some ⟨7, 100, 15, 1439, 0⟩)).ads_watched_today = 0
    ∧ (Stats.getStats 1441 (some ⟨7, 100, 15, 1439, 0⟩)).spins_today = 0
    ∧ (Stats.getStats 1441 (some ⟨7, 100, 15, 1439, 0⟩)).balance = (7 : Rat)
    ∧ Api2.getStatsCounters 60 1441 ⟨7, 100, 15, 1439, 0⟩ = ⟨7, 100, 15, 1439, 0⟩ :=
  C6_amended 1441 ⟨7, 100, 15, 1439, 0⟩ (by decide) 60 1441
    ⟨7, 100, 15, 1439, 0⟩ (by decide)

/-! ### C7 -/

/-- C7 counterexample: in the part_001 variant, with no configured
secret (`SECRET_KEY` unset), a signature computed from the publicly
visible hardcoded fallback key is accepted and the signed watchAd action
is processed — signature verification does not fail for every input. -/
theorem C7_counterexample :
    Sig.verifySignature (fun s => s) none 1 "watchAd"
        (some ("1:watchAd:" ++ Sig.defaultSecretKey)) = true
    ∧ (Sig.handleWatchAd (fun s => s) none
        ⟨1, some ("1:watchAd:" ++ Sig.defaultSecretKey)⟩
        [(1, ⟨0, 0, 0, none⟩)]).resp.ok = true :=
  ⟨rfl, rfl⟩

/-- Every `securityPreCheck` with a missing bot token fails with an
`ok = false` error response. -/
theorem td_precheck_noToken (hmac : String → String → String)
    (parseUser : String → Option Int) (body : Td.Body) :
    ∃ e, Td.securityPreCheck hmac parseUser none body = .error e
      ∧ e.ok = false := by
  unfold Td.securityPreCheck
  cases body.init_data with
  | none => exact ⟨_, rfl, rfl⟩
  | some initData =>
    cases body.user_id with
    | none => exact ⟨_, rfl, rfl⟩
    | some claimed => exact ⟨_, rfl, rfl⟩

/-- C7 amended: in the initData variant a missing `BOT_TOKEN` makes
`validateInitData` fail for every input, so every signed action
(witnessed on the watchAd and spinResult handlers) is refused with an
error and no state change; in the part_001 variant a missing
`SECRET_KEY` instead falls back to the hardcoded default key, and a
signature computed from that fallback key is accepted. -/
theorem C7_amended (hmac : String → String → String)
    (parseUser : String → Option Int) (initData : Td.Fields)
    (body : Td.Body) (db : Db) (idx : Fin Td.SPIN_SECTORS.length)
    (hash : String → String) (uid : Int) (ty : String)
    (hne : hash (toString uid ++ ":" ++ ty ++ ":" ++ Sig.defaultSecretKey) ≠ "") :
    Td.validateInitData hmac parseUser none initData = none
    ∧ (Td.handleWatchAd hmac parseUser none body db).resp.ok = false
    ∧ (Td.handleWatchAd hmac parseUser none body db).db = db
    ∧ (Td.handleSpinResult hmac parseUser none body db idx).resp.ok = false
    ∧ (Td.handleSpinResult hmac parseUser none body db idx).db = db
    ∧ Sig.verifySignature hash none uid ty
        (some (hash (toString uid ++ ":" ++ ty ++ ":" ++ Sig.defaultSecretKey)))
        = true := by
  obtain ⟨e, he, heok⟩ := td_precheck_noToken hmac parseUser body
  refine ⟨rfl, ?_, ?_, ?_, ?_, ?_⟩
  · unfold Td.handleWatchAd
    rw [he]
    exact heok
  · unfold Td.handleWatchAd
    rw [he]
  · unfold Td.handleSpinResult
    rw [he]
    exact heok
  · unfold Td.handleSpinResult
    rw [he]
  · unfold Sig.verifySignature
    dsimp only
    rw [if_neg hne]
    simp [Sig.SECRET_KEY]

/-- Witness for C7: concrete refusals with no bot token, and a concrete
fallback-key signature acceptance. -/
theorem C7_witness :
    Td.validateInitData wHmac wParseUser none wFields = none
    ∧ (Td.handleWatchAd wHmac wParseUser none wBody
        [(1, ⟨0, 0, 0, none⟩)]).resp.ok = false
    ∧ (Td.handleWatchAd wHmac wParseUser none wBody
        [(1, ⟨0, 0, 0, none⟩)]).db = [(1, ⟨0, 0, 0, none⟩)]
    ∧ (Td.handleSpinResult wHmac wParseUser none wBody
        [(1, ⟨0, 0, 0, none⟩)] ⟨0, by decide⟩).resp.ok = false
    ∧ (Td.handleSpinResult wHmac wParseUser none wBody
        [(1, ⟨0, 0, 0, none⟩)] ⟨0, by decide⟩).db = [(1, ⟨0, 0, 0, none⟩)]
    ∧ Sig.verifySignature (fun _ => "h") none 1 "watchAd"
        (some ((fun _ => "h") ("1:watchAd:" ++ Sig.defaultSecretKey))) = true :=
  C7_amended wHmac wParseUser wFields wBody [(1, ⟨0, 0, 0, none⟩)]
    ⟨0, by decide⟩ (fun _ => "h") 1 "watchAd" (by decide)

/-! ### C8 -/

/-- C8: in the initData variant, a request whose validated payload
embeds user id `uid` while the body claims a different numeric-string
user id is rejected by `securityPreCheck` with the 403 mismatch error,
even though `validateInitData` succeeded — i.e. even though the
payload's signature is valid. -/
theorem C8_user_mismatch (hmac : String → String → String)
    (parseUser : String → Option Int) (tok : Option String)
    (body : Td.Body) (initData d : Td.Fields) (uid claimed : Int)
    (hbody : body.init_data = some initData)
    (hclaim : body.user_id = some claimed)
    (hval : Td.validateInitData hmac parseUser tok initData = some (d, uid))
    (hne : toString uid ≠ toString claimed) :
    Td.securityPreCheck hmac parseUser tok body
      = .error (errResp "User ID mismatch. Security check failed." 403) := by
  unfold Td.securityPreCheck
  rw [hbody]
  dsimp only
  rw [hclaim]
  dsimp only
  rw [hval]
  dsimp only
  rw [if_pos hne]

/-- Witness for C8: a payload validly signed for user 1, replayed with
the claimed user id 2, is rejected with the mismatch error. -/
theorem C8_witness :
    Td.securityPreCheck wHmac wParseUser (some "t") ⟨some wFields, some 2⟩
      = .error (errResp "User ID mismatch. Security check failed." 403) :=
  C8_user_mismatch wHmac wParseUser (some "t") ⟨some wFields, some 2⟩
    wFields wFieldsObj 1 2 rfl rfl rfl (by decide)

/-! ### C10 -/

/-- C10: in the initData variant, once the security pre-check passes and
the user lookup returns, `handleSpinResult` reaches the undefined
identifier `ArrayOf` — bound neither at the file's top level nor as a JS
global — so the handler throws, the catch responds with HTTP 500, and no
balance change or `spin_results` insert ever happens. -/
theorem C10_spinResult_throws (hmac : String → String → String)
    (parseUser : String → Option Int) (tok : Option String)
    (body : Td.Body) (db : Db) (idx : Fin Td.SPIN_SECTORS.length)
    (d : Td.Fields) (uid : Int)
    (hpre : Td.securityPreCheck hmac parseUser tok body = .ok (d, uid)) :
    "ArrayOf" ∉ Td.topLevelNames ++ Td.jsGlobalNames
    ∧ (Td.handleSpinResult hmac parseUser tok body db idx).resp.status = 500
    ∧ (Td.handleSpinResult hmac parseUser tok body db idx).resp.ok = false
    ∧ (Td.handleSpinResult hmac parseUser tok body db idx).db = db
    ∧ (Td.handleSpinResult hmac parseUser tok body db idx).spinResultRecs
        = [] := by
  have hmem : "ArrayOf" ∉ Td.topLevelNames ++ Td.jsGlobalNames := by decide
  refine ⟨hmem, ?_, ?_, ?_, ?_⟩ <;>
  · unfold Td.handleSpinResult
    rw [hpre]
    dsimp only
    rw [if_neg hmem]
    rfl

/-- Witness for C10: a concrete request passing the security pre-check
for user 1, against a table containing user 1, still yields the 500
internal error and leaves the table unchanged. -/
theorem C10_witness :
    "ArrayOf" ∉ Td.topLevelNames ++ Td.jsGlobalNames
    ∧ (Td.handleSpinResult wHmac wParseUser (some "t") wBody
        [(1, ⟨0, 0, 0, none⟩)] ⟨0, by decide⟩).resp.status = 500
    ∧ (Td.handleSpinResult wHmac wParseUser (some "t") wBody
        [(1, ⟨0, 0, 0, none⟩)] ⟨0, by decide⟩).resp.ok = false
    ∧ (Td.handleSpinResult wHmac wParseUser (some "t") wBody
        [(1, ⟨0, 0, 0, none⟩)] ⟨0, by decide⟩).db = [(1, ⟨0, 0, 0, none⟩)]
    ∧ (Td.handleSpinResult wHmac wParseUser (some "t") wBody
        [(1, ⟨0, 0, 0, none⟩)] ⟨0, by decide⟩).spinResultRecs = [] :=
  C10_spinResult_throws wHmac wParseUser (some "t") wBody
    [(1, ⟨0, 0, 0, none⟩)] ⟨0, by decide⟩ wFieldsObj 1 rfl
